import Mathlib

/-!
Verification of the last-mile delivery MIP comparison script (`mip.py`).

The script defines a distance-based first-time-hit-rate (FTHR) step
function, builds two mixed-integer programs over the same data (a Basic
variant and an FTHR variant that adds an expected-redelivery cost term),
extracts customer-to-DC assignments from solver variable values, computes
derived metrics, and emits a comparison report.

We embed the script shallowly: Python floats become rationals (`ℚ`),
binary decision variables become `Bool`-valued functions coerced to `ℚ`,
the pulp constraint blocks become `Prop`s, the objective `lpSum`
expressions become list sums, and the post-solve extraction/metrics code
— whose dictionary lookups can raise `KeyError` — becomes `Except`-valued
functions.
-/

/-- The reliability (first-time-hit-rate) step schedule from the source:
`calculate_fthr(distance)` in `mip.py`. -/
def calculate_fthr (distance : ℚ) : ℚ :=
  if distance ≤ 5 then 0.95
  else if distance ≤ 10 then 0.85
  else if distance ≤ 15 then 0.70
  else if distance ≤ 20 then 0.55
  else 0.40

/-- The transport cost rate, `TRANSPORT_COST_PER_KM = 15` in the source. -/
def TRANSPORT_COST_PER_KM : ℚ := 15

/-- The per-run input data of the script: customer and DC identifier
lists and the demand / capacity / fixed-cost / distance tables built from
the CSV inputs. -/
structure ProblemData where
  customers : List Nat
  dcs : List Nat
  demand : Nat → ℚ
  capacity : Nat → ℚ
  fixed_cost : Nat → ℚ
  distance : Nat → Nat → ℚ

/-- The transport_cost column of the matrix: distance_km times
TRANSPORT_COST_PER_KM. -/
def transport_cost (P : ProblemData) (c d : Nat) : ℚ :=
  P.distance c d * TRANSPORT_COST_PER_KM

/-- The fthr column of the matrix: calculate_fthr applied to distance_km. -/
def fthr_edge (P : ProblemData) (c d : Nat) : ℚ :=
  calculate_fthr (P.distance c d)

/-- The value of a binary decision variable as a rational. -/
def b2q (b : Bool) : ℚ := if b then 1 else 0

/-- Constraint family 1 (single assignment): for every customer the
assign-variables over all DCs sum to exactly 1. -/
def single_assignment_constraint (P : ProblemData) (x : Nat → Nat → Bool) : Prop :=
  ∀ c ∈ P.customers, (P.dcs.map (fun d => b2q (x c d))).sum = 1

/-- Constraint family 2 (capacity): for every DC the served demand is at
most `capacity[d] * open[d]`. -/
def capacity_constraint (P : ProblemData) (x : Nat → Nat → Bool) (y : Nat → Bool) : Prop :=
  ∀ d ∈ P.dcs,
    (P.customers.map (fun c => P.demand c * b2q (x c d))).sum ≤ P.capacity d * b2q (y d)

/-- Constraint family 3 (linking): `assign[c][d] ≤ open[d]` per pair. -/
def linking_constraint (P : ProblemData) (x : Nat → Nat → Bool) (y : Nat → Bool) : Prop :=
  ∀ c ∈ P.customers, ∀ d ∈ P.dcs, b2q (x c d) ≤ b2q (y d)

/-- The constraint block added to `model_basic` in the source
(lines 85–106): the three families, transcribed in order. -/
def model_basic_constraints (P : ProblemData) (x : Nat → Nat → Bool) (y : Nat → Bool) : Prop :=
  (∀ c ∈ P.customers, (P.dcs.map (fun d => b2q (x c d))).sum = 1) ∧
  (∀ d ∈ P.dcs,
    (P.customers.map (fun c => P.demand c * b2q (x c d))).sum ≤ P.capacity d * b2q (y d)) ∧
  (∀ c ∈ P.customers, ∀ d ∈ P.dcs, b2q (x c d) ≤ b2q (y d))

/-- The constraint block added to `model_fthr` in the source
(lines 160–181): the three families, transcribed in order. -/
def model_fthr_constraints (P : ProblemData) (x : Nat → Nat → Bool) (y : Nat → Bool) : Prop :=
  (∀ c ∈ P.customers, (P.dcs.map (fun d => b2q (x c d))).sum = 1) ∧
  (∀ d ∈ P.dcs,
    (P.customers.map (fun c => P.demand c * b2q (x c d))).sum ≤ P.capacity d * b2q (y d)) ∧
  (∀ c ∈ P.customers, ∀ d ∈ P.dcs, b2q (x c d) ≤ b2q (y d))

/-- The `model_basic` objective: fixed cost plus transport cost. -/
def model_basic_objective (P : ProblemData) (x : Nat → Nat → Bool) (y : Nat → Bool) : ℚ :=
  (P.dcs.map (fun d => P.fixed_cost d * b2q (y d))).sum +
  (P.customers.map (fun c =>
    (P.dcs.map (fun d => transport_cost P c d * b2q (x c d))).sum)).sum

/-- The third `lpSum` of the `model_fthr` objective: the expected
re-delivery cost term. -/
def expected_redelivery_term (P : ProblemData) (x : Nat → Nat → Bool) : ℚ :=
  (P.customers.map (fun c =>
    (P.dcs.map (fun d =>
      transport_cost P c d * (1 - fthr_edge P c d) * b2q (x c d))).sum)).sum

/-- The `model_fthr` objective: fixed cost plus transport cost plus
expected re-delivery cost. -/
def model_fthr_objective (P : ProblemData) (x : Nat → Nat → Bool) (y : Nat → Bool) : ℚ :=
  (P.dcs.map (fun d => P.fixed_cost d * b2q (y d))).sum +
  (P.customers.map (fun c =>
    (P.dcs.map (fun d => transport_cost P c d * b2q (x c d))).sum)).sum +
  (P.customers.map (fun c =>
    (P.dcs.map (fun d =>
      transport_cost P c d * (1 - fthr_edge P c d) * b2q (x c d))).sum)).sum

/-- Derived metric: `sum(distance[(i, a[i])] for i in customers)`. -/
def total_distance (P : ProblemData) (a : Nat → Nat) : ℚ :=
  (P.customers.map (fun c => P.distance c (a c))).sum

/-- Derived metric: total distance divided by the customer count. -/
def avg_distance (P : ProblemData) (a : Nat → Nat) : ℚ :=
  total_distance P a / (P.customers.length : ℚ)

/-- Derived metric: `sum(fthr[(i, a[i])] for i in customers) / len(customers)`. -/
def avg_fthr (P : ProblemData) (a : Nat → Nat) : ℚ :=
  (P.customers.map (fun c => fthr_edge P c (a c))).sum / (P.customers.length : ℚ)

/-- Derived metric (FTHR variant):
`sum(transport_cost[(i, a[i])] * (1 - fthr[(i, a[i])]) for i in customers)`. -/
def expected_redelivery (P : ProblemData) (a : Nat → Nat) : ℚ :=
  (P.customers.map (fun c =>
    transport_cost P c (a c) * (1 - fthr_edge P c (a c)))).sum

/-- The pulp solver status strings used by the script. -/
inductive SolverStatus where
  | Optimal
  | Infeasible
  | Unbounded
  | Undefined
  | NotSolved
deriving DecidableEq

/-- Looking up customer `i` in the dict comprehension
`{i: j for i in customers for j in dcs if value(x[(i, j)]) == 1}`:
for a fixed `i` the inner loop inserts every DC `j` whose solved value
equals 1 exactly, each insertion overwriting the previous, so the stored
value is the LAST such DC in iteration order; if no DC has value exactly
1 the key is absent and the lookup raises `KeyError`. -/
def dict_get_assignment (dcs : List Nat) (v : Nat → Nat → ℚ) (i : Nat) : Except String Nat :=
  match (dcs.filter (fun j => decide (v i j = 1))).getLast? with
  | some j => Except.ok j
  | none => Except.error "KeyError"

/-- The assignment lookups performed by the metrics block, one per
customer, in order; the first missing key aborts with `KeyError`. -/
def lookup_all (dcs : List Nat) (v : Nat → Nat → ℚ) : List Nat → Except String (List (Nat × Nat))
  | [] => Except.ok []
  | i :: rest =>
    match dict_get_assignment dcs v i with
    | Except.error e => Except.error e
    | Except.ok j =>
      match lookup_all dcs v rest with
      | Except.error e => Except.error e
      | Except.ok tl => Except.ok ((i, j) :: tl)

/-- The per-variant record the script prints and exports. -/
structure VariantResult where
  status : SolverStatus
  opened_dcs : List Nat
  assignments : List (Nat × Nat)
  res_total_distance : ℚ
  res_avg_distance : ℚ
  res_avg_fthr : ℚ

/-- The post-solve block of the script for one variant (source lines
113–123 for Basic, 188–204 for FTHR): it reads the status but branches
on nothing — extraction of the assignment dict and the metric sums run
unconditionally, and a missing assignment key raises `KeyError`. -/
def variant_pipeline (P : ProblemData) (status : SolverStatus)
    (vx : Nat → Nat → ℚ) (vy : Nat → ℚ) : Except String VariantResult :=
  match lookup_all P.dcs vx P.customers with
  | Except.error e => Except.error e
  | Except.ok assigned =>
    Except.ok ⟨status,
      P.dcs.filter (fun j => decide (vy j = 1)),
      assigned,
      (assigned.map (fun p => P.distance p.1 p.2)).sum,
      (assigned.map (fun p => P.distance p.1 p.2)).sum / (P.customers.length : ℚ),
      (assigned.map (fun p => fthr_edge P p.1 p.2)).sum / (P.customers.length : ℚ)⟩

/-- The whole script after the two solver calls: the Basic post-solve
block runs first, then the FTHR post-solve block, then the comparison
summary; an uncaught exception anywhere aborts everything after it. The
`Except.ok` payload (both variant results) is produced exactly when the
run reaches the comparison summary. -/
def full_run (P : ProblemData) (bs fs : SolverStatus)
    (vxB vxF : Nat → Nat → ℚ) (vyB vyF : Nat → ℚ) :
    Except String (VariantResult × VariantResult) :=
  match variant_pipeline P bs vxB vyB with
  | Except.error e => Except.error e
  | Except.ok b =>
    match variant_pipeline P fs vxF vyF with
    | Except.error e => Except.error e
    | Except.ok f => Except.ok (b, f)

/-! ### Helper lemmas -/

lemma sum_map_congr_q {l : List Nat} {f g : Nat → ℚ} (h : ∀ a ∈ l, f a = g a) :
    (l.map f).sum = (l.map g).sum := by
  induction l with
  | nil => rfl
  | cons a t ih =>
    simp only [List.map_cons, List.sum_cons]
    rw [h a (List.mem_cons_self a t), ih (fun b hb => h b (List.mem_cons_of_mem a hb))]

lemma sum_map_mul_left_q (l : List Nat) (c : ℚ) (f : Nat → ℚ) :
    (l.map (fun a => c * f a)).sum = c * (l.map f).sum := by
  induction l with
  | nil => simp
  | cons a t ih => simp [ih, mul_add]

lemma sum_map_const_q (l : List Nat) (c : ℚ) :
    (l.map (fun _ => c)).sum = (l.length : ℚ) * c := by
  induction l with
  | nil => simp
  | cons a t ih => simp [ih, add_mul, add_comm]

lemma sum_map_nonneg_q {l : List Nat} {f : Nat → ℚ} (h : ∀ a ∈ l, 0 ≤ f a) :
    0 ≤ (l.map f).sum := by
  induction l with
  | nil => simp
  | cons a t ih =>
    simp only [List.map_cons, List.sum_cons]
    have ha := h a (List.mem_cons_self a t)
    have ht := ih (fun b hb => h b (List.mem_cons_of_mem a hb))
    linarith

lemma b2q_nonneg (b : Bool) : 0 ≤ b2q b := by
  cases b <;> simp [b2q]

lemma calculate_fthr_le_one (d : ℚ) : calculate_fthr d ≤ 1 := by
  unfold calculate_fthr
  split_ifs <;> norm_num

lemma calculate_fthr_mem (d : ℚ) :
    calculate_fthr d = 0.95 ∨ calculate_fthr d = 0.85 ∨ calculate_fthr d = 0.70 ∨
    calculate_fthr d = 0.55 ∨ calculate_fthr d = 0.40 := by
  unfold calculate_fthr
  split_ifs <;> simp

lemma redelivery_term_nonneg (P : ProblemData)
    (hd : ∀ c ∈ P.customers, ∀ d ∈ P.dcs, 0 ≤ P.distance c d)
    (x : Nat → Nat → Bool) : 0 ≤ expected_redelivery_term P x := by
  unfold expected_redelivery_term
  apply sum_map_nonneg_q
  intro c hc
  apply sum_map_nonneg_q
  intro d hdc
  have h1 : 0 ≤ transport_cost P c d := by
    unfold transport_cost TRANSPORT_COST_PER_KM
    have := hd c hc d hdc
    positivity
  have h2 : 0 ≤ 1 - fthr_edge P c d := by
    have := calculate_fthr_le_one (P.distance c d)
    unfold fthr_edge
    linarith
  have h3 := b2q_nonneg (x c d)
  positivity

lemma constraints_same (P : ProblemData) (x : Nat → Nat → Bool) (y : Nat → Bool) :
    model_basic_constraints P x y ↔ model_fthr_constraints P x y := Iff.rfl

/-! ### The claims -/

/-- C1: both model variants impose exactly the same three constraint
families — single assignment, capacity, and linking — on the binary
variables. -/
theorem basic_and_fthr_share_constraints (P : ProblemData)
    (x : Nat → Nat → Bool) (y : Nat → Bool) :
    (model_basic_constraints P x y ↔
      single_assignment_constraint P x ∧ capacity_constraint P x y ∧ linking_constraint P x y) ∧
    (model_fthr_constraints P x y ↔
      single_assignment_constraint P x ∧ capacity_constraint P x y ∧ linking_constraint P x y) ∧
    (model_basic_constraints P x y ↔ model_fthr_constraints P x y) :=
  ⟨Iff.rfl, Iff.rfl, Iff.rfl⟩

/-- C3: the reliability function returns exactly 0.95 on distances up to
5, 0.85 on (5, 10], 0.70 on (10, 15], 0.55 on (15, 20], and 0.40 beyond
20, with the upper boundary of each band inclusive. -/
theorem calculate_fthr_band_table (d : ℚ) (h : 0 ≤ d) :
    (d ≤ 5 → calculate_fthr d = 0.95) ∧
    (5 < d → d ≤ 10 → calculate_fthr d = 0.85) ∧
    (10 < d → d ≤ 15 → calculate_fthr d = 0.70) ∧
    (15 < d → d ≤ 20 → calculate_fthr d = 0.55) ∧
    (20 < d → calculate_fthr d = 0.40) ∧
    calculate_fthr 5 = 0.95 ∧ calculate_fthr 10 = 0.85 ∧
    calculate_fthr 15 = 0.70 ∧ calculate_fthr 20 = 0.55 := by
  refine ⟨?_, ?_, ?_, ?_, ?_, ?_, ?_, ?_, ?_⟩ <;>
    first
      | (intro h1
         unfold calculate_fthr
         split_ifs <;> first | rfl | linarith)
      | (intro h1 h2
         unfold calculate_fthr
         split_ifs <;> first | rfl | linarith)
      | (unfold calculate_fthr; norm_num)

/-- C3 witness: the band table evaluated at distance 7. -/
theorem calculate_fthr_band_table_witness :
    ((7 : ℚ) ≤ 5 → calculate_fthr 7 = 0.95) ∧
    ((5 : ℚ) < 7 → (7 : ℚ) ≤ 10 → calculate_fthr 7 = 0.85) ∧
    ((10 : ℚ) < 7 → (7 : ℚ) ≤ 15 → calculate_fthr 7 = 0.70) ∧
    ((15 : ℚ) < 7 → (7 : ℚ) ≤ 20 → calculate_fthr 7 = 0.55) ∧
    ((20 : ℚ) < 7 → calculate_fthr 7 = 0.40) ∧
    calculate_fthr 5 = 0.95 ∧ calculate_fthr 10 = 0.85 ∧
    calculate_fthr 15 = 0.70 ∧ calculate_fthr 20 = 0.55 :=
  calculate_fthr_band_table 7 (by norm_num)

/-- C4: the reliability function is non-increasing in distance, and its
value always lies in {0.95, 0.85, 0.70, 0.55, 0.40}. -/
theorem calculate_fthr_monotone_and_range (d1 d2 : ℚ) (h1 : 0 ≤ d1) (h12 : d1 ≤ d2) :
    calculate_fthr d2 ≤ calculate_fthr d1 ∧
    (calculate_fthr d1 = 0.95 ∨ calculate_fthr d1 = 0.85 ∨ calculate_fthr d1 = 0.70 ∨
     calculate_fthr d1 = 0.55 ∨ calculate_fthr d1 = 0.40) := by
  refine ⟨?_, calculate_fthr_mem d1⟩
  unfold calculate_fthr
  split_ifs <;> norm_num <;> linarith

/-- C4 witness: distances 3 and 17. -/
theorem calculate_fthr_monotone_and_range_witness :
    calculate_fthr 17 ≤ calculate_fthr 3 ∧
    (calculate_fthr 3 = 0.95 ∨ calculate_fthr 3 = 0.85 ∨ calculate_fthr 3 = 0.70 ∨
     calculate_fthr 3 = 0.55 ∨ calculate_fthr 3 = 0.40) :=
  calculate_fthr_monotone_and_range 3 17 (by norm_num) (by norm_num)

/-- C10: the reliability function is total — on every rational distance,
negative ones included, it returns one of the five tabulated values — and
every distance at most 5, in particular every negative one, yields 0.95. -/
theorem calculate_fthr_total_low_band (d : ℚ) :
    (calculate_fthr d = 0.95 ∨ calculate_fthr d = 0.85 ∨ calculate_fthr d = 0.70 ∨
     calculate_fthr d = 0.55 ∨ calculate_fthr d = 0.40) ∧
    (d ≤ 5 → calculate_fthr d = 0.95) := by
  refine ⟨calculate_fthr_mem d, fun hle => ?_⟩
  unfold calculate_fthr
  split_ifs
  rfl

/-- C10 witness: the negative distance -3 yields 0.95. -/
theorem calculate_fthr_total_low_band_witness : calculate_fthr (-3) = 0.95 :=
  (calculate_fthr_total_low_band (-3)).2 (by norm_num)

/-- C2: for every 0/1 assignment of the variables the FTHR objective is
the Basic objective plus the expected-redelivery term; that term is
non-negative whenever all distances are non-negative; hence an optimal
FTHR solution costs at least as much as an optimal Basic solution. -/
theorem fthr_objective_dominates_basic (P : ProblemData)
    (hd : ∀ c ∈ P.customers, ∀ d ∈ P.dcs, 0 ≤ P.distance c d) :
    (∀ x y, model_fthr_objective P x y =
      model_basic_objective P x y + expected_redelivery_term P x) ∧
    (∀ x, 0 ≤ expected_redelivery_term P x) ∧
    (∀ xB yB xF yF,
      model_basic_constraints P xB yB →
      (∀ x y, model_basic_constraints P x y →
        model_basic_objective P xB yB ≤ model_basic_objective P x y) →
      model_fthr_constraints P xF yF →
      (∀ x y, model_fthr_constraints P x y →
        model_fthr_objective P xF yF ≤ model_fthr_objective P x y) →
      model_basic_objective P xB yB ≤ model_fthr_objective P xF yF) := by
  refine ⟨fun x y => rfl, fun x => redelivery_term_nonneg P hd x, ?_⟩
  intro xB yB xF yF hB hBopt hF hFopt
  have hF' : model_basic_constraints P xF yF := (constraints_same P xF yF).mpr hF
  have h1 : model_basic_objective P xB yB ≤ model_basic_objective P xF yF :=
    hBopt xF yF hF'
  have h2 : 0 ≤ expected_redelivery_term P xF := redelivery_term_nonneg P hd xF
  have h3 : model_fthr_objective P xF yF =
      model_basic_objective P xF yF + expected_redelivery_term P xF := rfl
  linarith

/-- A degenerate concrete datum: one customer, one DC, zero demand and
costs, unit capacity, zero distances. -/
def Pzero : ProblemData :=
  ⟨[0], [0], fun _ => 0, fun _ => 1, fun _ => 0, fun _ _ => 0⟩

/-- C2 witness: the domination statement instantiated at `Pzero`. -/
theorem fthr_objective_dominates_basic_witness :
    (∀ x y, model_fthr_objective Pzero x y =
      model_basic_objective Pzero x y + expected_redelivery_term Pzero x) ∧
    (∀ x, 0 ≤ expected_redelivery_term Pzero x) ∧
    (∀ xB yB xF yF,
      model_basic_constraints Pzero xB yB →
      (∀ x y, model_basic_constraints Pzero x y →
        model_basic_objective Pzero xB yB ≤ model_basic_objective Pzero x y) →
      model_fthr_constraints Pzero xF yF →
      (∀ x y, model_fthr_constraints Pzero x y →
        model_fthr_objective Pzero xF yF ≤ model_fthr_objective Pzero x y) →
      model_basic_objective Pzero xB yB ≤ model_fthr_objective Pzero xF yF) :=
  fthr_objective_dominates_basic Pzero
    (by intro c hc d hd; simp [Pzero] at hc hd ⊢)

/-- C5: with the 15-per-km transport rate, three customers and every
distance equal to 12 km, every edge has reliability 0.70, the FTHR
extra term on any single-assignment solution is 0.30 × (12 × 15) × 3 =
162, and the FTHR objective is the Basic objective plus 162. -/
theorem fthr_extra_term_distance_twelve (P : ProblemData)
    (x : Nat → Nat → Bool) (y : Nat → Bool)
    (hlen : P.customers.length = 3)
    (hdist : ∀ c ∈ P.customers, ∀ d ∈ P.dcs, P.distance c d = 12)
    (hx : single_assignment_constraint P x) :
    (∀ c ∈ P.customers, ∀ d ∈ P.dcs, fthr_edge P c d = 0.70) ∧
    expected_redelivery_term P x = 162 ∧
    model_fthr_objective P x y = model_basic_objective P x y + 162 := by
  have hrel : ∀ c ∈ P.customers, ∀ d ∈ P.dcs, fthr_edge P c d = 0.70 := by
    intro c hc d hd
    unfold fthr_edge
    rw [hdist c hc d hd]
    unfold calculate_fthr
    norm_num
  have hterm : expected_redelivery_term P x = 162 := by
    unfold expected_redelivery_term
    have houter : ∀ c ∈ P.customers,
        (P.dcs.map (fun d =>
          transport_cost P c d * (1 - fthr_edge P c d) * b2q (x c d))).sum =
        (fun _ => (54 : ℚ)) c := by
      intro c hc
      have hinner : ∀ d ∈ P.dcs,
          transport_cost P c d * (1 - fthr_edge P c d) * b2q (x c d) =
          54 * b2q (x c d) := by
        intro d hd
        rw [hrel c hc d hd]
        unfold transport_cost TRANSPORT_COST_PER_KM
        rw [hdist c hc d hd]
        norm_num
      rw [sum_map_congr_q hinner, sum_map_mul_left_q, hx c hc]
      norm_num
    rw [sum_map_congr_q houter, sum_map_const_q, hlen]
    norm_num
  refine ⟨hrel, hterm, ?_⟩
  have hobj : model_fthr_objective P x y =
      model_basic_objective P x y + expected_redelivery_term P x := rfl
  rw [hobj, hterm]

/-- Scenario B data: three customers, one DC, every distance 12 km. -/
def Ptwelve : ProblemData :=
  ⟨[0, 1, 2], [0], fun _ => 0, fun _ => 100, fun _ => 0, fun _ _ => 12⟩

/-- C5 witness: scenario B at `Ptwelve` with every customer assigned to
the single DC. -/
theorem fthr_extra_term_distance_twelve_witness :
    (∀ c ∈ Ptwelve.customers, ∀ d ∈ Ptwelve.dcs, fthr_edge Ptwelve c d = 0.70) ∧
    expected_redelivery_term Ptwelve (fun _ _ => true) = 162 ∧
    model_fthr_objective Ptwelve (fun _ _ => true) (fun _ => true) =
      model_basic_objective Ptwelve (fun _ _ => true) (fun _ => true) + 162 :=
  fthr_extra_term_distance_twelve Ptwelve (fun _ _ => true) (fun _ => true)
    (by simp [Ptwelve])
    (by intro c hc d hd; simp [Ptwelve])
    (by intro c hc; simp [Ptwelve, b2q])

/-- C6: on a total assignment with a non-empty customer set, total
distance is the sum of assigned distances, average distance is total
distance over the customer count, average reliability is the mean of the
assigned reliabilities, and expected redelivery cost is the sum of
transport cost times failure probability. -/
theorem derived_metrics_formulas (P : ProblemData) (a : Nat → Nat)
    (hne : P.customers ≠ []) :
    total_distance P a = (P.customers.map (fun c => P.distance c (a c))).sum ∧
    avg_distance P a = total_distance P a / (P.customers.length : ℚ) ∧
    avg_fthr P a * (P.customers.length : ℚ) =
      (P.customers.map (fun c => fthr_edge P c (a c))).sum ∧
    expected_redelivery P a =
      (P.customers.map (fun c =>
        transport_cost P c (a c) * (1 - fthr_edge P c (a c)))).sum := by
  refine ⟨rfl, rfl, ?_, rfl⟩
  unfold avg_fthr
  have hlen : (P.customers.length : ℚ) ≠ 0 := by
    have h0 : P.customers.length ≠ 0 := fun hl => hne (List.length_eq_zero.mp hl)
    exact_mod_cast h0
  field_simp

/-- C6 witness: the metric formulas at `Ptwelve` with every customer
assigned to DC 0. -/
theorem derived_metrics_formulas_witness :
    total_distance Ptwelve (fun _ => 0) =
      (Ptwelve.customers.map (fun c => Ptwelve.distance c 0)).sum ∧
    avg_distance Ptwelve (fun _ => 0) =
      total_distance Ptwelve (fun _ => 0) / (Ptwelve.customers.length : ℚ) ∧
    avg_fthr Ptwelve (fun _ => 0) * (Ptwelve.customers.length : ℚ) =
      (Ptwelve.customers.map (fun c => fthr_edge Ptwelve c 0)).sum ∧
    expected_redelivery Ptwelve (fun _ => 0) =
      (Ptwelve.customers.map (fun c =>
        transport_cost Ptwelve c 0 * (1 - fthr_edge Ptwelve c 0))).sum :=
  derived_metrics_formulas Ptwelve (fun _ => 0) (by simp [Ptwelve])

lemma filter_value_one_nil (l : List Nat) (v : Nat → Nat → ℚ) (i : Nat)
    (hv : ∀ j ∈ l, v i j ≠ 1) :
    l.filter (fun j => decide (v i j = 1)) = [] := by
  induction l with
  | nil => rfl
  | cons a t ih =>
    have ha : v i a ≠ 1 := hv a (List.mem_cons_self a t)
    simp [List.filter_cons, ha, ih (fun b hb => hv b (List.mem_cons_of_mem a hb))]

lemma dict_get_assignment_keyerror (dcs : List Nat) (v : Nat → Nat → ℚ) (i : Nat)
    (hv : ∀ j ∈ dcs, v i j ≠ 1) :
    dict_get_assignment dcs v i = Except.error "KeyError" := by
  unfold dict_get_assignment
  rw [filter_value_one_nil dcs v i hv]
  rfl

lemma lookup_all_cons_error (dcs : List Nat) (v : Nat → Nat → ℚ) (i : Nat)
    (rest : List Nat)
    (h : dict_get_assignment dcs v i = Except.error "KeyError") :
    lookup_all dcs v (i :: rest) = Except.error "KeyError" := by
  unfold lookup_all
  rw [h]

lemma variant_pipeline_keyerror (P : ProblemData) (s : SolverStatus)
    (vx : Nat → Nat → ℚ) (vy : Nat → ℚ)
    (hne : P.customers ≠ []) (hv : ∀ i j, vx i j ≠ 1) :
    variant_pipeline P s vx vy = Except.error "KeyError" := by
  obtain ⟨i, rest, hcons⟩ := List.exists_cons_of_ne_nil hne
  have hl : lookup_all P.dcs vx P.customers = Except.error "KeyError" := by
    rw [hcons]
    exact lookup_all_cons_error P.dcs vx i rest
      (dict_get_assignment_keyerror P.dcs vx i (fun j _ => hv i j))
  unfold variant_pipeline
  rw [hl]

/-- C7 counterexample: a run with Infeasible (non-Optimal) status and no
variable value equal to 1 — the post-solve block still runs the
extraction lookups and raises `KeyError` instead of propagating a
status-carrying result. -/
theorem nonoptimal_extraction_counterexample :
    SolverStatus.Infeasible ≠ SolverStatus.Optimal ∧
    variant_pipeline Pzero SolverStatus.Infeasible (fun _ _ => 0) (fun _ => 0) =
      Except.error "KeyError" := by
  constructor
  · intro h
    exact SolverStatus.noConfusion h
  · rfl

/-- C7 amended: the post-solve block never consults the solver status —
on any status, once no variable value equals 1 the assignment lookups
are still attempted and the lookup for the first customer raises
`KeyError`. -/
theorem nonoptimal_extraction_attempted (P : ProblemData) (s : SolverStatus)
    (vx : Nat → Nat → ℚ) (vy : Nat → ℚ)
    (hne : P.customers ≠ []) (hv : ∀ i j, vx i j ≠ 1) :
    variant_pipeline P s vx vy = Except.error "KeyError" :=
  variant_pipeline_keyerror P s vx vy hne hv

/-- C7 witness: the amended statement at `Ptwelve` with status Undefined
and all variable values 0.5. -/
theorem nonoptimal_extraction_attempted_witness :
    variant_pipeline Ptwelve SolverStatus.Undefined (fun _ _ => 0.5) (fun _ => 0) =
      Except.error "KeyError" :=
  nonoptimal_extraction_attempted Ptwelve SolverStatus.Undefined
    (fun _ _ => 0.5) (fun _ => 0)
    (by simp [Ptwelve]) (by intro i j; norm_num)

/-- C8 counterexample: the extraction neither rounds nor tie-breaks as
claimed. A solved value of 0.6 (which would snap to 1 under the claimed
rounding) leaves the customer unassigned and the lookup raises
`KeyError`; and with DCs 0 and 1 both at value exactly 1 (a tie in
solved value), the dict comprehension keeps DC 1 — the last in iteration
order — not the lowest identifier 0. -/
theorem extraction_rounding_counterexample :
    dict_get_assignment [0] (fun _ _ => 0.6) 0 = Except.error "KeyError" ∧
    dict_get_assignment [0, 1] (fun _ _ => 1) 0 = Except.ok 1 ∧
    Except.ok 1 ≠ (Except.ok 0 : Except String Nat) := by
  refine ⟨dict_get_assignment_keyerror [0] (fun _ _ => 0.6) 0 (by intro j hj; norm_num),
    by rfl, ?_⟩
  intro h
  simp at h

/-- C8 amended: extraction compares solved values to 1 by exact equality
with no rounding and no warning; a customer with no DC at value exactly
1 is absent from the dict and its lookup raises `KeyError`; when several
DCs have value exactly 1, the last one in DC iteration order is kept. -/
theorem extraction_exact_match_last_wins (dcs : List Nat) (v : Nat → Nat → ℚ) (i : Nat) :
    ((∀ j ∈ dcs, v i j ≠ 1) → dict_get_assignment dcs v i = Except.error "KeyError") ∧
    (∀ j js, dcs.filter (fun j2 => decide (v i j2 = 1)) = js ++ [j] →
      dict_get_assignment dcs v i = Except.ok j) := by
  constructor
  · exact dict_get_assignment_keyerror dcs v i
  · intro j js hf
    unfold dict_get_assignment
    rw [hf, List.getLast?_concat]

/-- C8 witness: the amended statement applied with a single DC whose
solved value is 0.5. -/
theorem extraction_exact_match_last_wins_witness :
    dict_get_assignment [0] (fun _ _ => 0.5) 0 = Except.error "KeyError" :=
  (extraction_exact_match_last_wins [0] (fun _ _ => 0.5) 0).1
    (by intro j hj; norm_num)

lemma full_run_basic_keyerror (P : ProblemData) (bs fs : SolverStatus)
    (vxB vxF : Nat → Nat → ℚ) (vyB vyF : Nat → ℚ)
    (hne : P.customers ≠ []) (hv : ∀ i j, vxB i j ≠ 1) :
    full_run P bs fs vxB vxF vyB vyF = Except.error "KeyError" := by
  unfold full_run
  rw [variant_pipeline_keyerror P bs vxB vyB hne hv]

/-- C9 counterexample: with both solves Infeasible and all variable
values 0, the script is not two isolated failure domains — the Basic
metrics block raises `KeyError`, the whole run aborts, and no comparison
report (the `Except.ok` payload) is produced. -/
theorem isolated_failure_counterexample :
    SolverStatus.Infeasible ≠ SolverStatus.Optimal ∧
    full_run Pzero SolverStatus.Infeasible SolverStatus.Infeasible
      (fun _ _ => 0) (fun _ _ => 0) (fun _ => 0) (fun _ => 0) =
      Except.error "KeyError" := by
  constructor
  · intro h
    exact SolverStatus.noConfusion h
  · rfl

/-- C9 amended: the Basic and FTHR pipelines are not isolated — whenever
the Basic solve leaves no variable at value exactly 1 (as on an
infeasible instance), the Basic metrics block raises `KeyError` and the
entire run aborts before the FTHR block and the comparison summary, so
neither FTHR results nor a comparison report are emitted. -/
theorem basic_failure_aborts_whole_run (P : ProblemData) (bs fs : SolverStatus)
    (vxB vxF : Nat → Nat → ℚ) (vyB vyF : Nat → ℚ)
    (hne : P.customers ≠ []) (hv : ∀ i j, vxB i j ≠ 1) :
    full_run P bs fs vxB vxF vyB vyF = Except.error "KeyError" :=
  full_run_basic_keyerror P bs fs vxB vxF vyB vyF hne hv

/-- C9 witness: the amended statement at `Ptwelve` with both statuses
Infeasible and all Basic variable values 0.3. -/
theorem basic_failure_aborts_whole_run_witness :
    full_run Ptwelve SolverStatus.Infeasible SolverStatus.Infeasible
      (fun _ _ => 0.3) (fun _ _ => 0.3) (fun _ => 0) (fun _ => 0) =
      Except.error "KeyError" :=
  basic_failure_aborts_whole_run Ptwelve SolverStatus.Infeasible SolverStatus.Infeasible
    (fun _ _ => 0.3) (fun _ _ => 0.3) (fun _ => 0) (fun _ => 0)
    (by simp [Ptwelve]) (by intro i j; norm_num)
